import Mathlib

/-!
Verification development for the `net_bench` ramp-bandwidth benchmark
(`src/net_bench/net_bench.c`, header `net_bench.h`).

The receiver (`run_server`) and sender (`run_client`) loops are embedded
as pure Lean functions over explicit event/state values:

* machine `uint64_t` quantities are modelled as `Nat` (the only
  subtractions the code performs are guarded so they cannot wrap for a
  monotonic clock, and the guarded `seq - max_seq - 1` is likewise
  nonnegative);
* the C `double` accumulator `total_latency` is modelled as an exact
  `Nat` sum of the per-packet `uint64_t` latencies (no claim below
  depends on floating-point rounding of this sum);
* each iteration of the receive loop is driven by one `RecvEvent`
  carrying the `recvfrom` return value `n` and the header fields the
  code reads from the receive buffer afterwards, plus the
  `get_time_ns()` reading taken on entry to the body.
-/

namespace NetBench

/-- One iteration of the receiver loop: `n` is the value returned by
`recvfrom` (nonpositive on error/timeout), `seq` and `ts` are
`packet.header.seq_num` and `packet.header.timestamp_ns` as they sit in
the receive buffer after the call, and `now` is the `get_time_ns()`
reading taken when `n > 0`. -/
structure RecvEvent where
  n : Int
  seq : Nat
  ts : Nat
  now : Nat
  deriving DecidableEq

/-- The receiver's mutable locals in `run_server`: the four interval
counters, the sequence tracker `max_seq`, and `last_report_time`. -/
structure ServerState where
  total_bytes : Nat
  total_pkts : Nat
  total_drops : Nat
  max_seq : Nat
  total_latency : Nat
  last_report : Nat
  deriving DecidableEq

/-- One emitted report line of `run_server`
(`printf("%lu,%.2f,%.0f,%lu\n", now/1000000000, mbps, avg_lat, total_drops)`):
we record the raw counters the printed values are derived from
(`mbps` is `total_bytes * 8 / 1e6`, `avg_lat` is
`total_latency / total_pkts`). -/
structure WindowRecord where
  ts_sec : Nat
  bytes : Nat
  pkts : Nat
  drops : Nat
  latency_sum : Nat
  deriving DecidableEq

/-- Latency computation of `run_server`:
`uint64_t lat = (now > sent_ts) ? (now - sent_ts) : 0;`. -/
def latencyNs (now sent_ts : Nat) : Nat :=
  if sent_ts < now then now - sent_ts else 0

/-- The accumulation half of the `n > 0` body of `run_server`'s loop:
drop tracking (`if (max_seq > 0 && packet.header.seq_num > max_seq + 1)
total_drops += seq - max_seq - 1;` then `max_seq = seq;`) followed by
`total_bytes += n; total_pkts++; total_latency += lat;`. -/
def accum (s : ServerState) (e : RecvEvent) : ServerState :=
  let lat := latencyNs e.now e.ts
  let drops := if 0 < s.max_seq ∧ s.max_seq + 1 < e.seq then
      s.total_drops + (e.seq - s.max_seq - 1)
    else s.total_drops
  { total_bytes := s.total_bytes + e.n.toNat
    total_pkts := s.total_pkts + 1
    total_drops := drops
    max_seq := e.seq
    total_latency := s.total_latency + lat
    last_report := s.last_report }

/-- The reporting half of the loop body:
`if (now - last_report_time > 1000000000ULL)` emit one record built from
the current counters, then zero `total_bytes`, `total_pkts`,
`total_drops`, `total_latency` and set `last_report_time = now`. -/
def reportCheck (s : ServerState) (now : Nat) :
    ServerState × Option WindowRecord :=
  if 1000000000 < now - s.last_report then
    ({ total_bytes := 0
       total_pkts := 0
       total_drops := 0
       max_seq := s.max_seq
       total_latency := 0
       last_report := now },
     some { ts_sec := now / 1000000000
            bytes := s.total_bytes
            pkts := s.total_pkts
            drops := s.total_drops
            latency_sum := s.total_latency })
  else (s, none)

/-- One full iteration of `run_server`'s `while(1)` loop: the body runs
only under `if (n > 0)`; an error or timeout return leaves every local
untouched and emits nothing. -/
def serverStep (s : ServerState) (e : RecvEvent) :
    ServerState × Option WindowRecord :=
  if 0 < e.n then reportCheck (accum s e) e.now else (s, none)

/-- Run the receiver loop over a finite trace of receive events,
collecting the emitted report records in order. -/
def serverRun (s : ServerState) : List RecvEvent → ServerState × List WindowRecord
  | [] => (s, [])
  | e :: es =>
    let p := serverStep s e
    let q := serverRun p.1 es
    (q.1, p.2.toList ++ q.2)

/-- The receiver's locals as initialised before the loop: all counters
and `max_seq` zero, `last_report_time = get_time_ns()` at start
(`t0`). -/
def initState (t0 : Nat) : ServerState :=
  { total_bytes := 0
    total_pkts := 0
    total_drops := 0
    max_seq := 0
    total_latency := 0
    last_report := t0 }

/-- A receive-loop iteration in which `recvfrom` returned `0` or an
error/timeout (modelled as `n = 0`): the buffer fields are irrelevant
because the body is skipped. -/
def noData (now : Nat) : RecvEvent :=
  { n := 0, seq := 0, ts := 0, now := now }

/-- The receiver state reached from a fresh session after one valid
packet has been accepted (a session that the specification's lifecycle
controller would call Active). -/
def activeState : ServerState :=
  (serverRun (initState 0) [{ n := 1400, seq := 1, ts := 0, now := 5 }]).1

/-- The ordered feed `1,2,3,5,6` (gap at 4) of the loss-detection
scenario, all full-size datagrams; the last arrives more than one second
after session start so that the 1-second report fires. -/
def eventsGap : List RecvEvent :=
  [ { n := 1400, seq := 1, ts := 0, now := 100 },
    { n := 1400, seq := 2, ts := 0, now := 200 },
    { n := 1400, seq := 3, ts := 0, now := 300 },
    { n := 1400, seq := 5, ts := 0, now := 400 },
    { n := 1400, seq := 6, ts := 0, now := 1500000001 } ]

/-- The feed `1,2,2,3` (duplicate) of the loss-detection scenario, the
last datagram again arriving after the 1-second report boundary. -/
def eventsDup : List RecvEvent :=
  [ { n := 1400, seq := 1, ts := 0, now := 100 },
    { n := 1400, seq := 2, ts := 0, now := 200 },
    { n := 1400, seq := 2, ts := 0, now := 300 },
    { n := 1400, seq := 3, ts := 0, now := 1500000001 } ]

/-- Sender-side inter-packet interval of `run_client`, computed once per
rate step:
`bytes_per_sec = rate * 1024 * 1024;`
`packet_interval_ns = 1000000000ULL / (bytes_per_sec / PACKET_SIZE);`
with `PACKET_SIZE = 1400`. -/
def packetInterval (rate : Nat) : Nat :=
  1000000000 / (rate * 1024 * 1024 / 1400)

/-- The sender loop's mutable locals: the next unused sequence number
and the `next_send` deadline. -/
structure ClientState where
  seq : Nat
  nextSend : Nat
  deriving DecidableEq

/-- Observable action of one iteration of `run_client`'s inner loop:
transmit a packet stamped with a sequence number and `now`, sleep for a
number of nanoseconds (`usleep(1)` is 1000 ns), or fall straight through
and re-check the clock (spin). `yieldCpu` never occurs in the code; it
is present so the specification's three-tier wait policy is expressible
in the same type. -/
inductive ClientAction where
  | send (seq ts : Nat)
  | sleepNs (d : Nat)
  | yieldCpu
  | spin
  deriving DecidableEq

/-- One iteration of `run_client`'s inner `while` body at clock reading
`now`: if `now >= next_send`, stamp and send, bump `seq`, advance the
deadline by one interval; otherwise `if (next_send - now > 100000)
usleep(1);` else do nothing and loop again. -/
def clientStep (interval : Nat) (s : ClientState) (now : Nat) :
    ClientAction × ClientState :=
  if s.nextSend ≤ now then
    (ClientAction.send s.seq now, { seq := s.seq + 1, nextSend := s.nextSend + interval })
  else if 100000 < s.nextSend - now then
    (ClientAction.sleepNs 1000, s)
  else
    (ClientAction.spin, s)

/-- The specification's three-tier adaptive wait policy for the case
`now < next_send_deadline`, as a function of
`remaining = next_send_deadline - now`: block for half of `remaining`
above 100 microseconds, yield between 1 and 100 microseconds, spin
below 1 microsecond. -/
def specWaitAction (remaining : Nat) : ClientAction :=
  if 100000 < remaining then ClientAction.sleepNs (remaining / 2)
  else if 1000 < remaining then ClientAction.yieldCpu
  else ClientAction.spin

/-- Idealized-clock execution of `run_client`'s inner loop for one rate
step, normalised to start at time 0 with `end_time = endT` and
`next_send = 0`. With no scheduler jitter and instantaneous syscalls the
clock reading is unchanged by a send, and a wait iteration resumes
exactly at the pending deadline; so each iteration either terminates
(`endT <= t`), sends (`ns <= t`, advancing the deadline by one interval)
or advances the clock to the deadline. `fuel` bounds the iteration count
so the function is total; the closed form below is proved for any
sufficient fuel. Returns the count of packets sent. -/
def clientLoopIdeal (interval endT : Nat) : Nat → Nat → Nat → Nat → Nat
  | 0, _, _, c => c
  | fuel + 1, t, ns, c =>
    if endT ≤ t then c
    else if ns ≤ t then clientLoopIdeal interval endT fuel t (ns + interval) (c + 1)
    else clientLoopIdeal interval endT fuel ns ns c

/-- Number of packets one rate step of `run_client` sends under the
idealized clock: rate `rate` MB/s for `dur` seconds. -/
def packetsSentIdeal (rate dur : Nat) : Nat :=
  clientLoopIdeal (packetInterval rate) (dur * 1000000000)
    (2 * (dur * 1000000000) + 2) 0 0 0

end NetBench

namespace NetBench

/-- An error/timeout iteration changes nothing and emits nothing. -/
theorem serverStep_noData (s : ServerState) (e : RecvEvent) (h : e.n ≤ 0) :
    serverStep s e = (s, none) := by
  unfold serverStep
  rw [if_neg]
  omega

/-- A run consisting only of error/timeout iterations changes nothing
and emits nothing. -/
theorem serverRun_noData (s : ServerState) :
    ∀ k now, serverRun s (List.replicate k (noData now)) = (s, []) := by
  intro k
  induction k with
  | zero => intro now; rfl
  | succ m ih =>
    intro now
    have hstep : serverStep s (noData now) = (s, none) :=
      serverStep_noData s (noData now) (by rfl)
    simp [List.replicate, serverRun, hstep, ih now]

/-- C1 (counterexample): `max_seq` is not monotonically non-decreasing.
Feeding sequence 3 and then the reordered sequence 2 makes the tracker
drop from 3 back to 2, because the loop assigns
`max_seq = packet.header.seq_num` unconditionally. -/
theorem seqTracker_not_monotone :
    (serverRun (initState 0)
        [{ n := 1400, seq := 3, ts := 0, now := 10 },
         { n := 1400, seq := 2, ts := 0, now := 20 }]).1.max_seq
      < (serverRun (initState 0)
        [{ n := 1400, seq := 3, ts := 0, now := 10 }]).1.max_seq := by
  decide

/-- C1 (amended): the tracker records the sequence number of the most
recently received packet (so it can decrease on reordered or duplicate
arrivals), and a packet arriving with `seq <= max_seq` contributes
nothing to the current window's `total_drops` at its own receipt. -/
theorem seqTracker_duplicate_no_loss (s : ServerState) (e : RecvEvent)
    (h : e.seq ≤ s.max_seq) :
    (accum s e).total_drops = s.total_drops ∧ (accum s e).max_seq = e.seq := by
  unfold accum
  refine ⟨?_, rfl⟩
  simp only
  rw [if_neg]
  omega

/-- C1 (witness): a duplicate of sequence 2 against a tracker at 3
leaves the drop counter untouched and sets the tracker to 2. -/
theorem seqTracker_duplicate_no_loss_w :
    ({ n := 1400, seq := 2, ts := 0, now := 20 } : RecvEvent).seq
        ≤ ({ total_bytes := 1400, total_pkts := 1, total_drops := 7,
             max_seq := 3, total_latency := 10, last_report := 0 } : ServerState).max_seq
      ∧ ((accum
            { total_bytes := 1400, total_pkts := 1, total_drops := 7,
              max_seq := 3, total_latency := 10, last_report := 0 }
            { n := 1400, seq := 2, ts := 0, now := 20 }).total_drops = 7
         ∧ (accum
            { total_bytes := 1400, total_pkts := 1, total_drops := 7,
              max_seq := 3, total_latency := 10, last_report := 0 }
            { n := 1400, seq := 2, ts := 0, now := 20 }).max_seq = 2) :=
  ⟨by decide,
   seqTracker_duplicate_no_loss
     { total_bytes := 1400, total_pkts := 1, total_drops := 7,
       max_seq := 3, total_latency := 10, last_report := 0 }
     { n := 1400, seq := 2, ts := 0, now := 20 } (by decide)⟩

/-- C2 (code divergence): the receiver loop of `run_server` has no
startup-timeout path at all. However long the session stays without
traffic — any number `k` of consecutive empty/timeout receive
iterations, at any clock reading — the state is exactly the initial
state again, nothing is emitted, and the `while(1)` loop simply
continues: there is no transition out of the waiting state and no clean
exit, contradicting the documented 10-minute startup timeout. -/
theorem no_startup_timeout (t0 : Nat) (k now : Nat) :
    serverRun (initState t0) (List.replicate k (noData now)) = (initState t0, []) :=
  serverRun_noData (initState t0) k now

/-- C3 (code divergence): the receiver loop of `run_server` has no idle
timeout either. From a session state that has already accepted traffic,
any number of consecutive empty/timeout receive iterations — i.e. an
arbitrarily long idle period — leaves the state unchanged, emits
nothing, and never terminates the loop, contradicting the documented
30-second idle timeout. -/
theorem no_idle_timeout (k now : Nat) :
    serverRun activeState (List.replicate k (noData now)) = (activeState, []) :=
  serverRun_noData activeState k now

/-- C4 (counterexample): a 1-byte datagram — far too small to contain
the 16-byte packet header — is not dropped: `run_server` only tests
`n > 0`, so it is counted as a received packet with 1 received byte. -/
theorem undersized_datagram_counted :
    (serverStep (initState 0) { n := 1, seq := 0, ts := 0, now := 50 }).1.total_pkts = 1
      ∧ (serverStep (initState 0) { n := 1, seq := 0, ts := 0, now := 50 }).1.total_bytes = 1 := by
  decide

/-- C4 (amended): only receive iterations whose `recvfrom` result is
nonpositive (errors and timeouts) are silently dropped, contributing
nothing to any counter and emitting nothing; every datagram with
`n > 0`, even one smaller than the packet header, is counted as
received. -/
theorem nonpositive_recv_dropped (s : ServerState) (e : RecvEvent)
    (h : e.n ≤ 0) : serverStep s e = (s, none) :=
  serverStep_noData s e h

/-- C4 (witness): an errored receive (`n = -1`) leaves the initial state
untouched and emits nothing. -/
theorem nonpositive_recv_dropped_w :
    ({ n := -1, seq := 0, ts := 0, now := 50 } : RecvEvent).n ≤ 0
      ∧ serverStep (initState 0) { n := -1, seq := 0, ts := 0, now := 50 }
          = (initState 0, none) :=
  ⟨by decide,
   nonpositive_recv_dropped (initState 0)
     { n := -1, seq := 0, ts := 0, now := 50 } (by decide)⟩

/-- C5 (counterexample): with 200 microseconds remaining before the
deadline, the specification's policy blocks for half the remaining time
(100000 ns), but `run_client` sleeps a fixed `usleep(1)` = 1000 ns. -/
theorem waitAction_not_spec :
    (clientStep 7 { seq := 1, nextSend := 200000 } 0).1
      ≠ specWaitAction (200000 - 0) := by
  decide

/-- C5 (amended): in every iteration with `now < next_send`, the wait
action depends only on `remaining = next_send - now` via a two-tier
rule: sleep a fixed 1000 ns (`usleep(1)`) when `remaining > 100000` ns,
otherwise spin; the processor is never yielded and the sleep length is
independent of `remaining`. -/
theorem waitAction_two_tier (interval : Nat) (s : ClientState) (now : Nat)
    (h : now < s.nextSend) :
    (clientStep interval s now).1
      = (if 100000 < s.nextSend - now then ClientAction.sleepNs 1000
         else ClientAction.spin) := by
  unfold clientStep
  rw [if_neg (by omega)]
  by_cases hr : 100000 < s.nextSend - now
  · rw [if_pos hr, if_pos hr]
  · rw [if_neg hr, if_neg hr]

/-- C5 (witness): at 200 microseconds remaining the code sleeps 1000 ns;
the two-tier rule evaluates accordingly. -/
theorem waitAction_two_tier_w :
    (0 : Nat) < ({ seq := 1, nextSend := 200000 } : ClientState).nextSend
      ∧ (clientStep 7 { seq := 1, nextSend := 200000 } 0).1
          = (if 100000 < ({ seq := 1, nextSend := 200000 } : ClientState).nextSend - 0
             then ClientAction.sleepNs 1000 else ClientAction.spin) :=
  ⟨by decide, waitAction_two_tier 7 { seq := 1, nextSend := 200000 } 0 (by decide)⟩

/-- C7: fed the ordered sequence 1,2,3,5,6 (full-size datagrams, the
last past the one-second report boundary) the receiver emits exactly one
window record and it reports 1 lost packet; fed 1,2,2,3 it emits exactly
one record reporting 4 received packets and 0 lost. -/
theorem loss_detection_scenarios :
    (serverRun (initState 0) eventsGap).2.map (fun r => r.drops) = [1]
      ∧ (serverRun (initState 0) eventsDup).2.map (fun r => (r.pkts, r.drops))
          = [(4, 0)] := by
  decide

/-- C8: the computed one-way latency is exactly `max 0 (now - send_ts)`
over the integers; in particular a packet stamped 500 ns ahead of the
receiver's clock yields latency 0. -/
theorem latency_clamped (now sent_ts : Nat) :
    (latencyNs now sent_ts : ℤ) = max 0 ((now : ℤ) - (sent_ts : ℤ))
      ∧ latencyNs now (now + 500) = 0 := by
  constructor
  · unfold latencyNs
    by_cases h : sent_ts < now
    · rw [if_pos h]
      omega
    · rw [if_neg h]
      omega
  · unfold latencyNs
    rw [if_neg (by omega)]

/-- C9: whenever the report branch emits a window record, the state it
leaves behind has all four interval-scoped counters exactly zero and the
window clock rebased to `now`; consequently the first packet accumulated
into the next window starts sums that contain exactly that packet's own
contribution. -/
theorem window_reset (s : ServerState) (now : Nat) (s2 : ServerState)
    (r : WindowRecord) (h : reportCheck s now = (s2, some r)) :
    (s2.total_bytes = 0 ∧ s2.total_pkts = 0 ∧ s2.total_drops = 0
        ∧ s2.total_latency = 0 ∧ s2.last_report = now)
      ∧ ∀ e : RecvEvent,
          (accum s2 e).total_bytes = e.n.toNat
            ∧ (accum s2 e).total_pkts = 1
            ∧ (accum s2 e).total_latency = latencyNs e.now e.ts := by
  unfold reportCheck at h
  by_cases hc : 1000000000 < now - s.last_report
  · rw [if_pos hc] at h
    obtain ⟨h1, -⟩ := Prod.mk.injEq .. ▸ h
    subst h1
    refine ⟨⟨rfl, rfl, rfl, rfl, rfl⟩, ?_⟩
    intro e
    unfold accum
    exact ⟨by simp, rfl, by simp⟩
  · rw [if_neg hc] at h
    exact absurd (congrArg Prod.snd h) (by simp)

/-- C9 (witness): a state with nonzero counters and a stale window clock
emits at `now = 2e9` and is reset. -/
theorem window_reset_w :
    reportCheck
        { total_bytes := 10, total_pkts := 2, total_drops := 1,
          max_seq := 5, total_latency := 7, last_report := 0 }
        2000000000
      = ({ total_bytes := 0, total_pkts := 0, total_drops := 0,
           max_seq := 5, total_latency := 0, last_report := 2000000000 },
         some { ts_sec := 2, bytes := 10, pkts := 2, drops := 1, latency_sum := 7 })
      ∧ ((({ total_bytes := 0, total_pkts := 0, total_drops := 0,
             max_seq := 5, total_latency := 0, last_report := 2000000000 } : ServerState).total_bytes = 0
          ∧ ({ total_bytes := 0, total_pkts := 0, total_drops := 0,
               max_seq := 5, total_latency := 0, last_report := 2000000000 } : ServerState).total_pkts = 0
          ∧ ({ total_bytes := 0, total_pkts := 0, total_drops := 0,
               max_seq := 5, total_latency := 0, last_report := 2000000000 } : ServerState).total_drops = 0
          ∧ ({ total_bytes := 0, total_pkts := 0, total_drops := 0,
               max_seq := 5, total_latency := 0, last_report := 2000000000 } : ServerState).total_latency = 0
          ∧ ({ total_bytes := 0, total_pkts := 0, total_drops := 0,
               max_seq := 5, total_latency := 0, last_report := 2000000000 } : ServerState).last_report = 2000000000)
         ∧ ∀ e : RecvEvent,
             (accum { total_bytes := 0, total_pkts := 0, total_drops := 0,
                      max_seq := 5, total_latency := 0, last_report := 2000000000 } e).total_bytes = e.n.toNat
               ∧ (accum { total_bytes := 0, total_pkts := 0, total_drops := 0,
                          max_seq := 5, total_latency := 0, last_report := 2000000000 } e).total_pkts = 1
               ∧ (accum { total_bytes := 0, total_pkts := 0, total_drops := 0,
                          max_seq := 5, total_latency := 0, last_report := 2000000000 } e).total_latency = latencyNs e.now e.ts) :=
  ⟨by decide,
   window_reset
     { total_bytes := 10, total_pkts := 2, total_drops := 1,
       max_seq := 5, total_latency := 7, last_report := 0 }
     2000000000
     { total_bytes := 0, total_pkts := 0, total_drops := 0,
       max_seq := 5, total_latency := 0, last_report := 2000000000 }
     { ts_sec := 2, bytes := 10, pkts := 2, drops := 1, latency_sum := 7 }
     (by decide)⟩

/-- C10 (counterexample): pre-first-receipt losses are not suppressed
forever. A session whose first accepted packet carries sequence 100
attributes no loss at that receipt, but a reordered straggler with
sequence 2 lowers `max_seq` to 2, and the next packet (sequence 101,
arriving past the one-second report boundary) then adds
`101 - 2 - 1 = 98` to `total_drops`: the window record reports the
98 packets below the first-received sequence as lost after all. -/
theorem pre_first_losses_reported :
    (serverRun (initState 0)
        [{ n := 1400, seq := 100, ts := 0, now := 10 },
         { n := 1400, seq := 2, ts := 0, now := 20 },
         { n := 1400, seq := 101, ts := 0, now := 1500000001 }]).2.map
        (fun r => r.drops) = [98] := by
  decide

/-- C10 (amended): while the tracker is still at its initial value
`max_seq = 0`, gap attribution is suppressed: accepting a packet with
any sequence number — in particular a first packet with sequence
`N > 1` — adds nothing to `total_drops` at that first receipt. The
suppression is only momentary: because the tracker is not monotone, a
later reordered packet with a lower sequence can re-expose the gap and
cause the pre-first-receipt losses to be counted in a subsequent
window. -/
theorem first_packet_gap_suppressed (s : ServerState) (e : RecvEvent)
    (h : s.max_seq = 0) :
    (accum s e).total_drops = s.total_drops := by
  unfold accum
  simp only
  rw [if_neg]
  omega

/-- One-step unfolding of the idealized sender loop at positive fuel. -/
theorem clientLoopIdeal_succ (I endT fuel t ns c : Nat) :
    clientLoopIdeal I endT (fuel + 1) t ns c
      = (if endT ≤ t then c
         else if ns ≤ t then clientLoopIdeal I endT fuel t (ns + I) (c + 1)
         else clientLoopIdeal I endT fuel ns ns c) := rfl

/-- Closed form of the idealized sender loop: starting exactly at the
pending deadline (`t = ns`), with a positive interval and sufficient
fuel, the loop sends one packet per deadline falling before `endT`,
i.e. the ceiling of `(endT - ns) / I` packets. -/
theorem clientLoopIdeal_closed (I endT : Nat) (hI : 1 ≤ I) :
    ∀ d fuel ns c, endT - ns = d → 2 * d + 1 ≤ fuel →
      clientLoopIdeal I endT fuel ns ns c = c + (endT - ns + I - 1) / I := by
  intro d
  induction d using Nat.strong_induction_on with
  | _ d ih =>
    intro fuel ns c hd hfuel
    obtain ⟨f, rfl⟩ : ∃ f, fuel = f + 1 := ⟨fuel - 1, by omega⟩
    by_cases hend : endT ≤ ns
    · rw [clientLoopIdeal_succ, if_pos hend]
      have h0 : endT - ns + I - 1 = I - 1 := by omega
      rw [h0, Nat.div_eq_of_lt (by omega : I - 1 < I)]
      omega
    · have hd1 : 1 ≤ d := by omega
      obtain ⟨f2, rfl⟩ : ∃ f2, f = f2 + 1 := ⟨f - 1, by omega⟩
      rw [clientLoopIdeal_succ, if_neg hend, if_pos (le_refl ns),
        clientLoopIdeal_succ, if_neg hend, if_neg (by omega : ¬ ns + I ≤ ns)]
      have ih2 := ih (endT - (ns + I)) (by omega) f2 (ns + I) (c + 1) rfl (by omega)
      rw [ih2]
      by_cases hcase : I ≤ d
      · have e1 : endT - (ns + I) + I - 1 = d - 1 := by omega
        have e2 : endT - ns + I - 1 = (d - 1) + I := by omega
        rw [e1, e2, Nat.add_div_right _ (by omega : 0 < I)]
        generalize (d - 1) / I = q
        omega
      · have e1 : endT - (ns + I) + I - 1 = I - 1 := by omega
        have e2 : endT - ns + I - 1 = (d - 1) + I := by omega
        rw [e1, e2, Nat.add_div_right _ (by omega : 0 < I),
          Nat.div_eq_of_lt (by omega : d - 1 < I),
          Nat.div_eq_of_lt (by omega : I - 1 < I)]

/-- The idealized per-step send count is the ceiling of the step
duration divided by the inter-packet interval. -/
theorem packetsSentIdeal_closed (rate dur : Nat) (hr1 : 1 ≤ rate)
    (hr2 : rate ≤ 2047) :
    packetsSentIdeal rate dur
      = (dur * 1000000000 + packetInterval rate - 1) / packetInterval rate := by
  have hipos : 1 ≤ packetInterval rate := by
    rw [show packetInterval rate = 1000000000 / (rate * 1024 * 1024 / 1400) from rfl]
    exact Nat.div_pos (by omega) (by omega)
  have h := clientLoopIdeal_closed (packetInterval rate) (dur * 1000000000) hipos
    (dur * 1000000000) (2 * (dur * 1000000000) + 2) 0 0 (by omega) (by omega)
  unfold packetsSentIdeal
  rw [h]
  simp

/-- Arithmetic core of the pacing bound: if `p` is the floor of
`b / 1400` packets per second, `i` the floor of `1e9 / p` nanoseconds,
and the step sends the ceiling of `dur * 1e9 / i` packets, then the
count is within 2 percent of `b * dur / 1400` (stated multiplied out:
`140000 = 100 * 1400`). -/
theorem pacing_bounds_aux (b p i dur : Nat) (hd : 1 ≤ dur)
    (hb_lo : 1048576 ≤ b) (hb_hi : b ≤ 2146435072)
    (hp1 : 1400 * p ≤ b) (hp2 : b < 1400 * p + 1400)
    (hi1 : p * i ≤ 1000000000) (hi2 : 1000000000 < p * i + p)
    (hipos : 0 < i) :
    98 * (b * dur) ≤ 140000 * ((dur * 1000000000 + i - 1) / i)
      ∧ 140000 * ((dur * 1000000000 + i - 1) / i) ≤ 102 * (b * dur) := by
  have hp_lo : 748 ≤ p := by omega
  have hp_hi : p ≤ 1533167 := by omega
  obtain ⟨j, rfl⟩ : ∃ j, i = j + 1 := ⟨i - 1, by omega⟩
  have hnum : dur * 1000000000 + (j + 1) - 1 = dur * 1000000000 + j := by omega
  rw [hnum]
  have hCdm := Nat.div_add_mod (dur * 1000000000 + j) (j + 1)
  have hCm : (dur * 1000000000 + j) % (j + 1) < j + 1 :=
    Nat.mod_lt _ (by omega)
  have hC1 : dur * 1000000000 ≤ (j + 1) * ((dur * 1000000000 + j) / (j + 1)) := by
    linarith
  have hC2 : (j + 1) * ((dur * 1000000000 + j) / (j + 1))
      < dur * 1000000000 + (j + 1) := by
    linarith [Nat.zero_le ((dur * 1000000000 + j) % (j + 1))]
  constructor
  · have h1 : dur * p ≤ (dur * 1000000000 + j) / (j + 1) := by
      have h2 : (j + 1) * (dur * p) ≤ (j + 1) * ((dur * 1000000000 + j) / (j + 1)) := by
        calc (j + 1) * (dur * p) = dur * (p * (j + 1)) := by ring
          _ ≤ dur * 1000000000 := Nat.mul_le_mul_left dur hi1
          _ ≤ (j + 1) * ((dur * 1000000000 + j) / (j + 1)) := hC1
      exact Nat.le_of_mul_le_mul_left h2 (by omega)
    have hlin1 : 98 * b ≤ 140000 * p := by omega
    calc 98 * (b * dur) = (98 * b) * dur := by ring
      _ ≤ (140000 * p) * dur := Nat.mul_le_mul_right dur hlin1
      _ = 140000 * (dur * p) := by ring
      _ ≤ 140000 * ((dur * 1000000000 + j) / (j + 1)) :=
          Nat.mul_le_mul_left 140000 h1
  · have hpi_lo : 998466834 ≤ p * (j + 1) := by linarith
    have k5 : 998466834 * ((dur * 1000000000 + j) / (j + 1))
        ≤ p * (dur * 1000000000) + 1000000000 := by
      calc 998466834 * ((dur * 1000000000 + j) / (j + 1))
          ≤ (p * (j + 1)) * ((dur * 1000000000 + j) / (j + 1)) :=
            Nat.mul_le_mul_right _ hpi_lo
        _ = p * ((j + 1) * ((dur * 1000000000 + j) / (j + 1))) := by ring
        _ ≤ p * (dur * 1000000000 + (j + 1)) :=
            Nat.mul_le_mul_left p (Nat.le_of_lt hC2)
        _ = p * (dur * 1000000000) + p * (j + 1) := by ring
        _ ≤ p * (dur * 1000000000) + 1000000000 := by linarith
    have hlin2 : 140000 * p ≤ 100 * b := by omega
    have k6 : 140000 * (p * (dur * 1000000000)) ≤ 100000000000 * (b * dur) := by
      calc 140000 * (p * (dur * 1000000000))
          = (140000 * p) * (dur * 1000000000) := by ring
        _ ≤ (100 * b) * (dur * 1000000000) := Nat.mul_le_mul_right _ hlin2
        _ = 100000000000 * (b * dur) := by ring
    have hbd : 1048576 ≤ b * dur := by
      calc (1048576 : Nat) = 1048576 * 1 := by norm_num
        _ ≤ b * dur := Nat.mul_le_mul hb_lo hd
    have big : 998466834 * (140000 * ((dur * 1000000000 + j) / (j + 1)))
        ≤ 998466834 * (102 * (b * dur)) := by
      calc 998466834 * (140000 * ((dur * 1000000000 + j) / (j + 1)))
          = 140000 * (998466834 * ((dur * 1000000000 + j) / (j + 1))) := by ring
        _ ≤ 140000 * (p * (dur * 1000000000) + 1000000000) :=
            Nat.mul_le_mul_left _ k5
        _ = 140000 * (p * (dur * 1000000000)) + 140000000000000 := by ring
        _ ≤ 100000000000 * (b * dur) + 140000000000000 := by linarith
        _ ≤ 101843617068 * (b * dur) := by linarith
        _ = 998466834 * (102 * (b * dur)) := by ring
    exact Nat.le_of_mul_le_mul_left big (by norm_num)

/-- C6: one rate step of `run_client` at `rate` MB/s for `dur` seconds
under the idealized jitter-free clock sends a number of packets within
plus or minus 2 percent of `rate * 1024 * 1024 * dur / 1400` (the bound
is stated multiplied through by `100 * 1400 = 140000`); the interval is
the once-per-step `packetInterval` and the deadline advances by exactly
one interval per send, as in the code. The upper bound `rate ≤ 2047`
keeps `rate * 1024 * 1024` inside the C `int` range in which the
source's arithmetic is defined. -/
theorem pacing_accuracy (rate dur : Nat) (hr1 : 1 ≤ rate)
    (hr2 : rate ≤ 2047) (hd : 1 ≤ dur) :
    98 * (rate * 1024 * 1024 * dur) ≤ 140000 * packetsSentIdeal rate dur
      ∧ 140000 * packetsSentIdeal rate dur
          ≤ 102 * (rate * 1024 * 1024 * dur) := by
  have hppos : 0 < rate * 1024 * 1024 / 1400 := by omega
  have hidef : packetInterval rate = 1000000000 / (rate * 1024 * 1024 / 1400) := rfl
  have hi1 : (rate * 1024 * 1024 / 1400) * packetInterval rate ≤ 1000000000 := by
    rw [hidef]
    calc (rate * 1024 * 1024 / 1400) * (1000000000 / (rate * 1024 * 1024 / 1400))
        = (1000000000 / (rate * 1024 * 1024 / 1400)) * (rate * 1024 * 1024 / 1400) := by ring
      _ ≤ 1000000000 := Nat.div_mul_le_self _ _
  have hi2 : 1000000000
      < (rate * 1024 * 1024 / 1400) * packetInterval rate
          + rate * 1024 * 1024 / 1400 := by
    rw [hidef]
    have hdm := Nat.div_add_mod 1000000000 (rate * 1024 * 1024 / 1400)
    have hm : 1000000000 % (rate * 1024 * 1024 / 1400)
        < rate * 1024 * 1024 / 1400 := Nat.mod_lt _ hppos
    linarith
  have hipos : 0 < packetInterval rate := by
    rw [hidef]
    exact Nat.div_pos (by omega) hppos
  have key := pacing_bounds_aux (rate * 1024 * 1024) (rate * 1024 * 1024 / 1400)
    (packetInterval rate) dur hd (by omega) (by omega) (by omega) (by omega)
    hi1 hi2 hipos
  rw [packetsSentIdeal_closed rate dur hr1 hr2]
  exact key

/-- C6 (witness): the bounds hold for the first ramp step (1 MB/s) run
for 1 second. -/
theorem pacing_accuracy_w :
    ((1 : Nat) ≤ 1 ∧ (1 : Nat) ≤ 2047 ∧ (1 : Nat) ≤ 1)
      ∧ (98 * (1 * 1024 * 1024 * 1) ≤ 140000 * packetsSentIdeal 1 1
         ∧ 140000 * packetsSentIdeal 1 1 ≤ 102 * (1 * 1024 * 1024 * 1)) :=
  ⟨⟨by decide, by decide, by decide⟩,
   pacing_accuracy 1 1 (by decide) (by decide) (by decide)⟩

/-- C10 (witness): a fresh session whose very first packet carries
sequence 100 reports no loss for the 99 missing predecessors. -/
theorem first_packet_gap_suppressed_w :
    (initState 0).max_seq = 0
      ∧ (accum (initState 0) { n := 1400, seq := 100, ts := 0, now := 50 }).total_drops
          = (initState 0).total_drops :=
  ⟨by decide,
   first_packet_gap_suppressed (initState 0)
     { n := 1400, seq := 100, ts := 0, now := 50 } (by decide)⟩

end NetBench
